import Mathlib

/-!
Verification of the chatbot-server core: the message-envelope model
(`src/utils/models.py`), the conversation rule engine and fuzzy matcher
(`src/api/handler.py`), and the session recorder / transcript builder
(`src/utils/ws_recorder.py`), shallowly embedded in Lean 4.

JSON values are modelled exactly (numbers as exact rationals; the Python
implementation computes similarity scores with IEEE doubles, which agree
with the rational values on every input considered here).  Python
exceptions are modelled with `Except Unit`: a `.error ()` result marks an
exception raised at that point of the Python code.
-/

/-- A JSON value as produced by `json.loads` / consumed by pydantic.
Objects are association lists in document order; `json.loads` deduplicates
keys, so objects reaching the embedded code have distinct keys. -/
inductive Json where
  | null : Json
  | bool (b : Bool) : Json
  | num (q : ℚ) : Json
  | str (s : String) : Json
  | arr (elems : List Json) : Json
  | obj (fields : List (String × Json)) : Json

/-- Key lookup in a JSON object, mirroring Python `dict` indexing.  Keys
are unique on every object reaching the code (see `Json.obj`), so
first-match lookup coincides with Python's behaviour. -/
def jlookup (fields : List (String × Json)) (key : String) : Option Json :=
  List.lookup key fields

/-- Python truthiness (`if x:`) of a decoded JSON value. -/
def pyTruthy : Json → Bool
  | .null => false
  | .bool b => b
  | .num q => q != 0
  | .str s => s != ""
  | .arr l => !l.isEmpty
  | .obj l => !l.isEmpty

/-- Python `str()` of a decoded JSON value, as used inside f-strings.
Strings, booleans and `None` are rendered exactly; numbers and containers
are approximated (no claim exercises them in a rendered position). -/
def pyStr : Json → String
  | .str s => s
  | .bool true => "True"
  | .bool false => "False"
  | .null => "None"
  | .num q => toString q
  | .arr _ => ""
  | .obj _ => ""

/-- The `FlexMessage` pydantic model (`src/utils/models.py`): required
string fields `category`, `kind`, `name`; optional `body` (a JSON object
or `None`); optional `timestamp`; extra fields retained verbatim
(`extra="allow"`). -/
structure FlexMessage where
  category : String
  kind : String
  name : String
  body : Option (List (String × Json)) := none
  timestamp : Option String := none
  extra : List (String × Json) := []

/-- Field names declared on `FlexMessage`; every other key of an incoming
object is kept as an extra field. -/
def flexKnownKeys : List String := ["category", "kind", "name", "body", "timestamp"]

/-- Validation of the `body` field: pydantic `Optional[Dict[str, Any]]`
accepts a JSON object or `null` (or an absent key) and rejects anything
else. -/
def parseBodyField : Option Json → Option (Option (List (String × Json)))
  | none => some none
  | some .null => some none
  | some (.obj o) => some (some o)
  | some _ => none

/-- Validation of the `timestamp` field: pydantic `Optional[str]`. -/
def parseTsField : Option Json → Option (Option String)
  | none => some none
  | some .null => some none
  | some (.str t) => some (some t)
  | some _ => none

/-- The Envelope Model's `parse`: `FlexMessage.model_validate_json` on an
already-decoded JSON document.  Any non-object document, or an object
whose `category`/`kind`/`name` is missing or not a string, or whose
`body`/`timestamp` has the wrong shape, raises `ValidationError`
(modelled as `none`). -/
def parseFlexJson (j : Json) : Option FlexMessage :=
  match j with
  | .obj fs =>
    match jlookup fs "category", jlookup fs "kind", jlookup fs "name" with
    | some (.str c), some (.str k), some (.str n) =>
      match parseBodyField (jlookup fs "body"), parseTsField (jlookup fs "timestamp") with
      | some b, some t =>
        some ⟨c, k, n, b, t, fs.filter (fun p => !flexKnownKeys.contains p.1)⟩
      | _, _ => none
    | _, _, _ => none
  | _ => none

/-- The Envelope Model's `serialize`: `model_dump_json`, emitting the
declared fields in declaration order followed by the retained extra
fields, with `None` rendered as JSON `null`. -/
def serializeFlex (m : FlexMessage) : Json :=
  .obj ([("category", .str m.category), ("kind", .str m.kind), ("name", .str m.name),
         ("body", match m.body with | none => .null | some o => .obj o),
         ("timestamp", match m.timestamp with | none => .null | some t => .str t)]
        ++ m.extra)

/-- A raw wire payload: either text that is not a JSON document at all, or
a decoded JSON document.  This separates `json` syntax errors from
envelope validation errors without embedding a textual JSON grammar. -/
inductive Raw where
  | notJson : Raw
  | json (j : Json) : Raw

/-- Parsing a raw payload: `FlexMessage.model_validate_json(message)`.
Malformed JSON and invalid envelopes both raise (modelled as `none`). -/
def parseRaw : Raw → Option FlexMessage
  | .notJson => none
  | .json j => parseFlexJson j

/-! ## Fuzzy matcher (`src/api/handler.py`, `match_question`)

`rapidfuzz.fuzz.ratio` is the normalized InDel similarity
`100 * (1 - dist / (len1 + len2))` with
`dist = len1 + len2 - 2 * lcs(s1, s2)`, i.e. `200 * lcs / (len1 + len2)`,
and `100` when both strings are empty. -/

/-- One inner step of the longest-common-subsequence dynamic programme:
given the remaining second string, the remaining previous row, the
diagonal predecessor and the left neighbour, produce the rest of the
current row. -/
def lcsRow (a : Char) : List Char → List Nat → Nat → Nat → List Nat
  | y :: ys, p :: ps, diag, left =>
    let c := if a = y then diag + 1 else max left p
    c :: lcsRow a ys ps p c
  | _, _, _, _ => []

/-- Advance the LCS dynamic programme by one character of the first
string. -/
def lcsNext (a : Char) (ys : List Char) (prev : List Nat) : List Nat :=
  0 :: lcsRow a ys prev.tail (prev.headD 0) 0

/-- Length of a longest common subsequence, computed row by row. -/
def lcs (xs ys : List Char) : Nat :=
  (xs.foldl (fun row a => lcsNext a ys row) (List.replicate (ys.length + 1) 0)).getLastD 0

/-- The `rapidfuzz.fuzz` similarity used by `match_question` as an exact
rational in `[0, 100]`. -/
def simScore (s1 s2 : String) : ℚ :=
  if s1.length + s2.length = 0 then 100
  else mkRat (Int.ofNat (200 * lcs s1.data s2.data)) (s1.length + s2.length)

/-- The static reference catalog `questions` of `src/api/handler.py`, in
insertion order. -/
def questions : List (String × String) :=
  [("Thank you for joining me", "q1"),
   ("First, how did you find your care services today", "q1"),
   ("How could we provide better services next time", "q2"),
   ("What do you like most about the Harvard Medicine Family Van", "q3"),
   ("Is there anything else you\x27d like to share with us", "q4")]

/-- `list(questions.keys())` — the catalog keys in insertion order. -/
def questionKeys : List String := questions.map Prod.fst

/-- One step of `rapidfuzz.process.extractOne`: keep the current best and
replace it only on a strictly greater score, so the first of several
equally-scored choices wins. -/
def extractStep (q : String) (acc : Option (String × ℚ)) (k : String) : Option (String × ℚ) :=
  match acc with
  | none => some (k, simScore q k)
  | some (b, bs) => if bs < simScore q k then some (k, simScore q k) else some (b, bs)

/-- The model of `process.extractOne(query, choices, scorer=fuzz.ratio)`:
the first choice achieving the maximal score, with that score. -/
def extractOne (q : String) (choices : List String) : Option (String × ℚ) :=
  choices.foldl (extractStep q) none

/-- The fuzzy matcher `match_question` of `src/api/handler.py`: the best
match's identifier when its score reaches `threshold`, `none`
otherwise. -/
def match_question (input : String) (threshold : ℚ := 70) : Option String :=
  match extractOne input questionKeys with
  | none => none
  | some (best, score) => if threshold ≤ score then List.lookup best questions else none

/-! ## Conversation rule engine (`src/api/handler.py`) -/

/-- Accessor `FlexMessage.get_input_text` (`src/utils/models.py`): the
value at `body["input"]["text"]`, absent when `body` is falsy, `"input"`
is missing, or the text is missing or `null`.  When `body["input"]` is
present but not a dict, Python raises `AttributeError` at `.get`. -/
def get_input_text (m : FlexMessage) : Except Unit (Option Json) :=
  match m.body with
  | none => .ok none
  | some fs =>
    match jlookup fs "input" with
    | none => .ok none
    | some (.obj o) =>
      .ok (match jlookup o "text" with
           | some .null => none
           | x => x)
    | some _ => .error ()

/-- The outbound envelope built by `handle_conversation_result` and
serialized by `send_conversation_response`: empty spoken output and a
single `variables[q]` image attachment whose URL is keyed by `q`. -/
def mkImageResponse (s q : String) : Json :=
  .obj [("category", .str "scene"), ("kind", .str "request"),
        ("name", .str "conversationResponse"),
        ("body", .obj
          [("input", .obj [("text", .str s)]),
           ("output", .obj [("text", .str "")]),
           ("variables", .obj
             [(q, .obj
                [("component", .str "image"),
                 ("data", .obj
                   [("alt", .str q),
                    ("url", .str ("https://clinicfeedback.org/images/en_" ++ q ++ ".png"))])])])])]

/-- The `conversationResult` reaction `handle_conversation_result`: no
input text (or a falsy one) means silence; otherwise the fuzzy matcher
runs with the default threshold 70, and a match id yields exactly one
image response while no match yields silence.  A non-string truthy text
reaches `rapidfuzz` and raises. -/
def handle_conversation_result (m : FlexMessage) : Except Unit (List Json) :=
  match get_input_text m with
  | .error e => .error e
  | .ok none => .ok []
  | .ok (some v) =>
    if pyTruthy v = false then .ok []
    else
      match v with
      | .str s =>
        match match_question s 70 with
        | some q => .ok [mkImageResponse s q]
        | none => .ok []
      | _ => .error ()

/-- The body of `handle_message` before its enclosing `try`: validate the
raw payload as a `FlexMessage` (a failure raises), dispatch
`conversationResult` to `handle_conversation_result`, and only log every
other name.  Re-validation as `ConversationResultMessage` succeeds
whenever the `FlexMessage` validation did and the name matched, so it is
not a separate failure point. -/
def handle_message_core (r : Raw) : Except Unit (List Json) :=
  match parseRaw r with
  | none => .error ()
  | some m =>
    if m.name = "conversationResult" then handle_conversation_result m
    else .ok []

/-- The message handler `handle_message`: its `try`/`except Exception`
catches every failure of the body, logs it and produces nothing, so the
handler always returns (no exception escapes to the caller) and the
session loop in `src/app.py` continues with the next message. -/
def handle_message (r : Raw) : List Json :=
  match handle_message_core r with
  | .ok outs => outs
  | .error _ => []

/-- Python `s.lower()` on the code points of `s`. -/
def pyLower (s : String) : String := ⟨s.data.map Char.toLower⟩

/-- Case-insensitive test that `s` starts with `p` (Python
`s.lower().startswith(p)`). -/
def lowerStarts (s p : String) : Bool := p.data.isPrefixOf (pyLower s).data

/-- Modelled from the spec: the `conversationRequest` reaction of the
Conversation Rule Engine (spec §4.3, first rule set) is missing from
`src/` — only its declarations remain (`ConversationRequestMessage`,
`OptionalArgs.kind`, `is_init_request`, `ConversationResponseBody.fallback`
in `src/utils/models.py`, and unused imports in `src/api/handler.py`).
Following §4.3: start from the plain echo body, then apply the overrides
in strict priority order (init, then a "why" question, then exactly
"cat"); the spec fixes the cat card's URL and alt text only as constants,
rendered here as the `@showcards` placeholder values. -/
def conversationRequestReaction (T : String) (optionalArgsKind : Option String) : List Json :=
  let isInit := optionalArgsKind = some "init"
  let output :=
    if isInit then "Hello there!"
    else if lowerStarts T "why" then "I do not know how to answer that"
    else if pyLower T = "cat" then "Here is a cat @showcards(cat)"
    else "Echo: " ++ T
  let fallback : List (String × Json) :=
    if ¬ isInit ∧ lowerStarts T "why" then [("fallback", .bool true)] else []
  let varsField : List (String × Json) :=
    if ¬ isInit ∧ ¬ lowerStarts T "why" ∧ pyLower T = "cat" then
      [("public-cat", .obj
        [("component", .str "image"),
         ("data", .obj [("alt", .str "cat"), ("url", .str "cat.png")])])]
    else []
  [.obj [("category", .str "scene"), ("kind", .str "request"),
         ("name", .str "conversationResponse"),
         ("body", .obj
           ([("input", .obj [("text", .str T)]),
             ("output", .obj [("text", .str output)]),
             ("variables", .obj varsField)] ++ fallback))]]

/-! ## Session recorder and transcript builder (`src/utils/ws_recorder.py`) -/

/-- One entry of the in-memory session buffer `self.transcript` (and of
the durable `.jsonl` trace): `{timestamp, direction, data}`. -/
structure Record where
  timestamp : String
  direction : String
  data : Raw

/-- Accessor `get_data_collector`: `body.get("dataCollector")`, with a
JSON `null` value indistinguishable from an absent key. -/
def get_data_collector (m : FlexMessage) : Option Json :=
  match m.body with
  | none => none
  | some fs =>
    match jlookup fs "dataCollector" with
    | some .null => none
    | x => x

/-- The confidence key of one alternative, `a.get("confidence", 0)`:
`0` when the key is absent; a non-dict alternative raises at `.get`, and
a non-numeric confidence raises when compared (approximated as raising
here). -/
def pyConf (a : Json) : Except Unit ℚ :=
  match a with
  | .obj o =>
    match jlookup o "confidence" with
    | none => .ok 0
    | some (.num q) => .ok q
    | some _ => .error ()
  | _ => .error ()

/-- Python `max(alts, key=...)` over the remaining alternatives: replace
the current best only on a strictly greater key, so the first of several
equal-confidence alternatives wins. -/
def maxAlt (best : Json) (bc : ℚ) : List Json → Except Unit Json
  | [] => .ok best
  | a :: rest =>
    match pyConf a with
    | .error e => .error e
    | .ok c => if bc < c then maxAlt a c rest else maxAlt best bc rest

/-- Pick the highest-confidence alternative and read
`best.get("transcript")` (absent or `null` is `None`). -/
def altTranscript (a0 : Json) (rest : List Json) : Except Unit (Option Json) :=
  match pyConf a0 with
  | .error e => .error e
  | .ok c0 =>
    match maxAlt a0 c0 rest with
    | .error e => .error e
    | .ok (.obj bo) =>
      .ok (match jlookup bo "transcript" with
           | some .null => none
           | x => x)
    | .ok _ => .error ()

/-- The `for result in results` loop of `get_user_text`: the first
element whose `final` is exactly `True` (Python `is True`) decides the
answer; its alternatives (`.get("alternatives", [])`) yield `None` when
falsy, and the best transcript otherwise.  Non-dict elements raise at
`.get`; `max` over a truthy non-list raises at the key function or at
iteration. -/
def userTextLoop : List Json → Except Unit (Option Json)
  | [] => .ok none
  | .obj r :: rest =>
    match jlookup r "final" with
    | some (.bool true) =>
      let alts := (jlookup r "alternatives").getD (.arr [])
      if pyTruthy alts = false then .ok none
      else
        match alts with
        | .arr (a :: more) => altTranscript a more
        | _ => .error ()
    | _ => userTextLoop rest
  | _ :: _ => .error ()

/-- Accessor `get_user_text` (`src/utils/models.py`): the
highest-confidence transcript of the first finalized recognition result,
or `None`.  Iterating `body["results"]` when it is not a list raises,
except that an empty string or dict iterates zero times and falls through
to `return None`. -/
def get_user_text (m : FlexMessage) : Except Unit (Option Json) :=
  match m.body with
  | none => .ok none
  | some fs =>
    match jlookup fs "results" with
    | none => .ok none
    | some (.arr results) => userTextLoop results
    | some (.str s) => if s = "" then .ok none else .error ()
    | some (.obj o) => if o.isEmpty then .ok none else .error ()
    | some _ => .error ()

/-- The transcript lines contributed by one buffered record inside the
loop of `record_convertation`: re-validate the raw payload (a failure
raises), then emit a `Patient:` line for a `recognizeResults` envelope
with truthy user text, a `Listener:` line for a `conversationResult`
envelope with truthy input text, and nothing otherwise. -/
def entryLines (r : Record) : Except Unit (List String) :=
  match parseRaw r.data with
  | none => .error ()
  | some m =>
    if m.name = "recognizeResults" then
      match get_user_text m with
      | .error e => .error e
      | .ok t =>
        .ok (match t with
             | some j => if pyTruthy j then ["Patient: " ++ pyStr j] else []
             | none => [])
    else if m.name = "conversationResult" then
      match get_input_text m with
      | .error e => .error e
      | .ok t =>
        .ok (match t with
             | some j => if pyTruthy j then ["Listener: " ++ pyStr j] else []
             | none => [])
    else .ok []

/-- The body loop of `record_convertation` over the whole buffer, in
original order. -/
def linesFor : List Record → Except Unit (List String)
  | [] => .ok []
  | r :: rest =>
    match entryLines r with
    | .error e => .error e
    | .ok here =>
      match linesFor rest with
      | .error e => .error e
      | .ok more => .ok (here ++ more)

/-- The Transcript Builder `record_convertation`, as the ordered list of
lines written to the `.rpt` file.  An empty buffer raises `IndexError` at
`self.transcript[0]`; an unparsable entry raises `ValidationError` (there
is no `try` around the loop, so the lines already written before the
failure are abandoned with the exception — modelled as a single
`.error`). -/
def record_convertation (transcript : List Record) : Except Unit (List String) :=
  match transcript with
  | [] => .error ()
  | r0 :: _ =>
    match parseRaw r0.data with
    | none => .error ()
    | some m0 =>
      match linesFor transcript with
      | .error e => .error e
      | .ok lines =>
        .ok (("Datetime: " ++ r0.timestamp) ::
             ("SessionId: " ++ (match get_data_collector m0 with
                                | none => "None"
                                | some j => pyStr j)) :: lines)

/-- The in-memory buffer right after `WebSocketRecorder.start()`. -/
def start_buffer : List Record := []

/-- `WebSocketRecorder.record(direction, data)`: append one entry to the
buffer (the durable write is the same entry serialized). -/
def record_entry (buffer : List Record) (r : Record) : List Record :=
  buffer ++ [r]

/-- `WebSocketRecorder.stop()`: run the Transcript Builder synchronously,
then clear the buffer.  The result is the generated transcript together
with the cleared buffer; an exception in the builder propagates. -/
def stop (buffer : List Record) : Except Unit (List String × List Record) :=
  match record_convertation buffer with
  | .error e => .error e
  | .ok lines => .ok (lines, [])

/-! ## Helper lemmas -/

set_option maxRecDepth 200000

theorem foldl_extract_stay (q : String) :
    ∀ (cs : List String) (b : String) (bs : ℚ),
      (∀ k ∈ cs, simScore q k ≤ bs) →
      cs.foldl (extractStep q) (some (b, bs)) = some (b, bs) := by
  intro cs
  induction cs with
  | nil => intro b bs _; rfl
  | cons k rest ih =>
    intro b bs h
    have hk : ¬ bs < simScore q k := not_lt.mpr (h k (by simp))
    rw [List.foldl_cons, show extractStep q (some (b, bs)) k = some (b, bs) from by
      simp [extractStep, hk]]
    exact ih b bs (fun k' hk' => h k' (by simp [hk']))

theorem foldl_extract_first (q : String) (M : ℚ) (key : String) (post : List String)
    (hpost : ∀ k ∈ post, simScore q k ≤ M) (hkey : simScore q key = M) :
    ∀ (pre : List String) (b : String) (bs : ℚ), bs < M →
      (∀ k ∈ pre, simScore q k < M) →
      (pre ++ key :: post).foldl (extractStep q) (some (b, bs)) = some (key, M) := by
  intro pre
  induction pre with
  | nil =>
    intro b bs hbs _
    rw [List.nil_append, List.foldl_cons,
      show extractStep q (some (b, bs)) key = some (key, M) from by
        simp [extractStep, hkey, hbs]]
    exact foldl_extract_stay q post key M hpost
  | cons p rest ih =>
    intro b bs hbs hpre
    have hp : simScore q p < M := hpre p (by simp)
    rw [List.cons_append, List.foldl_cons]
    by_cases hcmp : bs < simScore q p
    · rw [show extractStep q (some (b, bs)) p = some (p, simScore q p) from by
        simp [extractStep, hcmp]]
      exact ih p (simScore q p) hp (fun k hk => hpre k (by simp [hk]))
    · rw [show extractStep q (some (b, bs)) p = some (b, bs) from by
        simp [extractStep, hcmp]]
      exact ih b bs hbs (fun k hk => hpre k (by simp [hk]))

theorem extractOne_first (q : String) (M : ℚ) (key : String) (pre post : List String)
    (hpre : ∀ k ∈ pre, simScore q k < M)
    (hmax : ∀ k ∈ pre ++ key :: post, simScore q k ≤ M)
    (hkey : simScore q key = M) :
    extractOne q (pre ++ key :: post) = some (key, M) := by
  have hpost : ∀ k ∈ post, simScore q k ≤ M := fun k hk => hmax k (by simp [hk])
  cases pre with
  | nil =>
    rw [extractOne, List.nil_append, List.foldl_cons,
      show extractStep q none key = some (key, M) from by simp [extractStep, hkey]]
    exact foldl_extract_stay q post key M hpost
  | cons p rest =>
    have hp : simScore q p < M := hpre p (by simp)
    rw [extractOne, List.cons_append, List.foldl_cons,
      show extractStep q none p = some (p, simScore q p) from rfl]
    exact foldl_extract_first q M key post hpost hkey rest p (simScore q p) hp
      (fun k hk => hpre k (by simp [hk]))

theorem entryLines_skip (r : Record) (m : FlexMessage)
    (hp : parseRaw r.data = some m)
    (h1 : m.name ≠ "recognizeResults") (h2 : m.name ≠ "conversationResult") :
    entryLines r = .ok [] := by
  simp [entryLines, hp, h1, h2]

theorem linesFor_all_skip :
    ∀ (l : List Record), (∀ r ∈ l, entryLines r = .ok []) → linesFor l = .ok [] := by
  intro l
  induction l with
  | nil => intro _; rfl
  | cons r rest ih =>
    intro h
    rw [linesFor, h r (by simp), ih (fun r' hr' => h r' (by simp [hr']))]
    rfl

theorem linesFor_append_ok (l1 l2 : List Record) (a b : List String)
    (h1 : linesFor l1 = .ok a) (h2 : linesFor l2 = .ok b) :
    linesFor (l1 ++ l2) = .ok (a ++ b) := by
  induction l1 generalizing a with
  | nil =>
    rw [linesFor] at h1
    cases h1
    simpa using h2
  | cons r rest ih =>
    rw [linesFor] at h1
    rcases he : entryLines r with _ | here
    · rw [he] at h1; cases h1
    · rw [he] at h1
      rcases hrest : linesFor rest with _ | more
      · rw [hrest] at h1; cases h1
      · rw [hrest] at h1
        cases h1
        rw [List.cons_append, linesFor, he, ih more hrest, List.append_assoc]

/-! ## Claims -/

/-- C3: for every input, `match_question` with the default threshold 70
returns the catalog identifier of the highest-scoring catalog key (the
first such key when several tie) when that key's similarity score is at
least 70, and returns `none` when the maximum score is strictly below 70;
in particular the exact catalog phrase about care services matches `q1`
and the unrelated string `xyz123` matches nothing. -/
theorem claim3_match_threshold (input : String) (M : ℚ) (key : String)
    (pre post : List String)
    (hsplit : questionKeys = pre ++ key :: post)
    (hpre : ∀ k ∈ pre, simScore input k < M)
    (hmax : ∀ k ∈ questionKeys, simScore input k ≤ M)
    (hkey : simScore input key = M) :
    ((M < 70 → match_question input 70 = none) ∧
     (70 ≤ M → match_question input 70 = List.lookup key questions)) ∧
    match_question "First, how did you find your care services today" 70 = some "q1" ∧
    match_question "xyz123" 70 = none := by
  have hext : extractOne input questionKeys = some (key, M) := by
    rw [hsplit]
    exact extractOne_first input M key pre post hpre (hsplit ▸ hmax) hkey
  refine ⟨⟨fun hlt => ?_, fun hge => ?_⟩, by decide, by decide⟩
  · simp [match_question, hext, not_le.mpr hlt]
  · simp [match_question, hext, hge]

theorem claim3_witness :
    match_question "xyz123" 70 = none ∧
    match_question "First, how did you find your care services today" 70 = some "q1" := by
  obtain ⟨⟨h1, _⟩, h2, _⟩ := claim3_match_threshold "" 0 "Thank you for joining me" []
    ["First, how did you find your care services today",
     "How could we provide better services next time",
     "What do you like most about the Harvard Medicine Family Van",
     "Is there anything else you\x27d like to share with us"]
    (by decide) (by simp) (by decide) (by decide)
  exact ⟨by decide, h2⟩

/-- C7 counterexample: for input `""` and threshold 70, every catalog key
achieves the identical maximum similarity score 0 (so two or more keys
tie at the maximum), yet `match_question` returns `none` rather than the
identifier of the first key in insertion order. -/
theorem claim7_counterexample :
    simScore "" "Thank you for joining me" =
      simScore "" "First, how did you find your care services today" ∧
    (∀ k ∈ questionKeys, simScore "" k ≤ simScore "" "Thank you for joining me") ∧
    match_question "" 70 ≠ some "q1" ∧
    match_question "" 70 = none := by
  refine ⟨by decide, by decide, by decide, by decide⟩

/-- C7 (amended): for every input text and threshold, when two or more
catalog keys achieve the identical maximum similarity score and that
maximum is at least the threshold, `match_question` returns the identifier
of the tied key that appears first in the catalog's insertion order (the
threshold condition is what the counterexample forces onto the claim). -/
theorem claim7_amended_first_of_ties (input : String) (thr M : ℚ) (key : String)
    (pre post : List String)
    (hsplit : questionKeys = pre ++ key :: post)
    (hpre : ∀ k ∈ pre, simScore input k < M)
    (hmax : ∀ k ∈ questionKeys, simScore input k ≤ M)
    (hkey : simScore input key = M)
    (htie : ∃ k2 ∈ questionKeys, k2 ≠ key ∧ simScore input k2 = M)
    (hthr : thr ≤ M) :
    match_question input thr = List.lookup key questions := by
  have hext : extractOne input questionKeys = some (key, M) := by
    rw [hsplit]
    exact extractOne_first input M key pre post hpre (hsplit ▸ hmax) hkey
  simp [match_question, hext, hthr]

theorem claim7_amended_witness : match_question "" 0 = some "q1" := by
  have h := claim7_amended_first_of_ties "" 0 0 "Thank you for joining me" []
    ["First, how did you find your care services today",
     "How could we provide better services next time",
     "What do you like most about the Harvard Medicine Family Van",
     "Is there anything else you\x27d like to share with us"]
    (by decide) (by simp) (by decide) (by decide)
    ⟨"First, how did you find your care services today", by decide, by decide, by decide⟩
    (by decide)
  exact h.trans (by decide)

/-- C8: for every raw input that fails envelope validation (malformed
JSON, a non-object document, or an object missing a required field of its
variant), `handle_message` produces no outbound message; being a total
function into `List Json`, it also lets no exception escape, so the
session loop continues with the next message. -/
theorem claim8_malformed_dropped (r : Raw) (h : parseRaw r = none) :
    handle_message r = [] := by
  simp [handle_message, handle_message_core, h]

theorem claim8_witness :
    parseRaw (.json (.obj [("category", .str "scene")])) = none ∧
    handle_message (.json (.obj [("category", .str "scene")])) = [] :=
  ⟨rfl, claim8_malformed_dropped (.json (.obj [("category", .str "scene")])) rfl⟩

/-- C9: parsing a serialized envelope restores it exactly — in particular
`category`, `kind`, `name` and `body` are unchanged — for every envelope
of every variant (the variants of `models.py` share this single
underlying representation, differing only in the `name` discriminant).
The hypothesis is the pydantic invariant that retained extra fields never
use a declared field name. -/
theorem claim9_roundtrip (m : FlexMessage)
    (hextra : ∀ p ∈ m.extra, flexKnownKeys.contains p.1 = false) :
    parseFlexJson (serializeFlex m) = some m := by
  obtain ⟨c, k, n, b, t, ex⟩ := m
  have hex : ex.filter (fun p => !flexKnownKeys.contains p.1) = ex :=
    List.filter_eq_self.mpr (fun p hp => by rw [hextra p hp]; rfl)
  cases b <;> cases t <;>
    simp [serializeFlex, parseFlexJson, jlookup, List.lookup, parseBodyField,
      parseTsField, flexKnownKeys, hex] <;>
    simpa [flexKnownKeys] using hex

theorem claim9_witness :
    parseFlexJson (serializeFlex
      ⟨"scene", "event", "personaResponse",
       some [("currentSpeech", .str "hi")], some "2024-05-01", [("extraKey", .num 1)]⟩) =
    some ⟨"scene", "event", "personaResponse",
       some [("currentSpeech", .str "hi")], some "2024-05-01", [("extraKey", .num 1)]⟩ :=
  claim9_roundtrip _ (by decide)

/-- C1: for a `conversationRequest` whose `optionalArgs.kind` is not
`"init"`, whose text does not case-insensitively start with `"why"` and
is not case-insensitively equal to `"cat"`, the (spec-modelled)
conversationRequest reaction produces exactly one outbound
`conversationResponse` envelope whose output text is `"Echo: " ++ T`.
The reaction itself is modelled from the spec because its code is missing
from `src/` (see `conversationRequestReaction`). -/
theorem claim1_plain_echo (T : String) (argKind : Option String)
    (hinit : argKind ≠ some "init")
    (hwhy : lowerStarts T "why" = false)
    (hcat : pyLower T ≠ "cat") :
    conversationRequestReaction T argKind =
      [.obj [("category", .str "scene"), ("kind", .str "request"),
             ("name", .str "conversationResponse"),
             ("body", .obj
               [("input", .obj [("text", .str T)]),
                ("output", .obj [("text", .str ("Echo: " ++ T))]),
                ("variables", .obj [])])]] := by
  simp [conversationRequestReaction, hinit, hwhy, hcat]

theorem claim1_witness :
    conversationRequestReaction "good morning" none =
      [.obj [("category", .str "scene"), ("kind", .str "request"),
             ("name", .str "conversationResponse"),
             ("body", .obj
               [("input", .obj [("text", .str "good morning")]),
                ("output", .obj [("text", .str "Echo: good morning")]),
                ("variables", .obj [])])]] :=
  claim1_plain_echo "good morning" none (by simp) (by decide) (by decide)

/-- C2: on a `conversationResult` envelope, absent input text produces no
outbound message; present input text through the fuzzy matcher produces
exactly one `conversationResponse` with empty spoken output and a single
`variables[q]` image attachment keyed by the match id `q` when a match is
found, and nothing when no match is found. -/
theorem claim2_result_reaction (m : FlexMessage) (hname : m.name = "conversationResult") :
    (get_input_text m = .ok none → handle_conversation_result m = .ok []) ∧
    (∀ s : String, get_input_text m = .ok (some (.str s)) →
      (∀ q, match_question s 70 = some q →
        handle_conversation_result m = .ok [mkImageResponse s q]) ∧
      (match_question s 70 = none → handle_conversation_result m = .ok [])) := by
  refine ⟨fun h => by simp [handle_conversation_result, h], fun s hs => ⟨?_, ?_⟩⟩
  · intro q hq
    by_cases hempty : s = ""
    · subst hempty
      have : match_question "" 70 = none := by decide
      simp [this] at hq
    · simp [handle_conversation_result, hs, pyTruthy, hempty, hq]
  · intro hq
    by_cases hempty : s = ""
    · subst hempty
      simp [handle_conversation_result, hs, pyTruthy]
    · simp [handle_conversation_result, hs, pyTruthy, hempty, hq]

theorem claim2_witness :
    handle_conversation_result
      ⟨"scene", "conversation", "conversationResult",
       some [("input", .obj [("text", .str "Thank you for joining me")])], none, []⟩ =
    .ok [mkImageResponse "Thank you for joining me" "q1"] := by
  have h := (claim2_result_reaction
    ⟨"scene", "conversation", "conversationResult",
     some [("input", .obj [("text", .str "Thank you for joining me")])], none, []⟩ rfl).2
    "Thank you for joining me" rfl
  exact h.1 "q1" (by decide)

/-- C4 (code bug): a session log whose second entry is not a parseable
envelope makes `record_convertation` raise (the loop has no per-entry
exception handling), so transcript generation aborts and even the lines
of the parseable first entry are lost — the same log without the bad
entry yields a complete transcript. -/
theorem claim4_bad_entry_aborts :
    record_convertation
      [⟨"2024-05-01T10:00:00", "recv",
        .json (.obj [("category", .str "scene"), ("kind", .str "conversation"),
                     ("name", .str "conversationResult"),
                     ("body", .obj [("input", .obj [("text", .str "Hi there")])])])⟩,
       ⟨"2024-05-01T10:00:05", "recv", .notJson⟩] = .error () ∧
    record_convertation
      [⟨"2024-05-01T10:00:00", "recv",
        .json (.obj [("category", .str "scene"), ("kind", .str "conversation"),
                     ("name", .str "conversationResult"),
                     ("body", .obj [("input", .obj [("text", .str "Hi there")])])])⟩] =
      .ok ["Datetime: 2024-05-01T10:00:00", "SessionId: None", "Listener: Hi there"] :=
  ⟨rfl, rfl⟩

/-- C5 (code bug): after `start()` and zero `record()` calls, `stop()`
raises instead of completing — `record_convertation` indexes
`self.transcript[0]` on the empty buffer, which raises `IndexError`, so
the buffer is never cleared and the exception propagates out of the
`finally` block of the session loop. -/
theorem claim5_stop_empty_raises : stop start_buffer = .error () := rfl


theorem userTextLoop_skip_nonfinal (post : List Json) (o : List (String × Json))
    (hfin : jlookup o "final" = some (.bool true))
    (halts : jlookup o "alternatives" = some (.arr [])) :
    ∀ pre : List Json,
      (∀ j ∈ pre, ∃ ob, j = Json.obj ob ∧ jlookup ob "final" ≠ some (.bool true)) →
      userTextLoop (pre ++ .obj o :: post) = .ok none := by
  intro pre
  induction pre with
  | nil => intro _; simp [userTextLoop, hfin, halts, pyTruthy]
  | cons j rest ih =>
    intro hpre
    obtain ⟨ob, rfl, hnf⟩ := hpre j (by simp)
    have ih' := ih (fun j' hj' => hpre j' (by simp [hj']))
    rcases hv : jlookup ob "final" with _ | v
    · simpa [userTextLoop, hv] using ih'
    · cases v with
      | bool b =>
        cases b with
        | false => simpa [userTextLoop, hv] using ih'
        | true => exact absurd hv hnf
      | null => simpa [userTextLoop, hv] using ih'
      | num q => simpa [userTextLoop, hv] using ih'
      | str s => simpa [userTextLoop, hv] using ih'
      | arr l => simpa [userTextLoop, hv] using ih'
      | obj l => simpa [userTextLoop, hv] using ih'

/-- C10: `get_user_text` inspects only the first element of
`body["results"]` whose `final` is exactly `True`: when that element's
alternatives list is empty it yields no transcript, even when a later
finalized element does contain alternatives (`post` is arbitrary), and
the corresponding `recognizeResults` log entry contributes no `Patient:`
line. -/
theorem claim10_first_final_wins (m : FlexMessage) (fs : List (String × Json))
    (pre post : List Json) (o : List (String × Json))
    (hbody : m.body = some fs)
    (hres : jlookup fs "results" = some (.arr (pre ++ .obj o :: post)))
    (hpre : ∀ j ∈ pre, ∃ ob, j = Json.obj ob ∧ jlookup ob "final" ≠ some (.bool true))
    (hfin : jlookup o "final" = some (.bool true))
    (halts : jlookup o "alternatives" = some (.arr [])) :
    get_user_text m = .ok none ∧
    (∀ r : Record, parseRaw r.data = some m → m.name = "recognizeResults" →
      entryLines r = .ok []) := by
  have hloop : userTextLoop (pre ++ .obj o :: post) = .ok none :=
    userTextLoop_skip_nonfinal post o hfin halts pre hpre
  have hmain : get_user_text m = .ok none := by
    simp [get_user_text, hbody, hres, hloop]
  refine ⟨hmain, fun r hp hn => ?_⟩
  simp [entryLines, hp, hn, hmain]

theorem claim10_witness :
    get_user_text
      ⟨"scene", "event", "recognizeResults",
       some [("results", .arr
         [.obj [("final", .bool true), ("alternatives", .arr [])],
          .obj [("final", .bool true), ("alternatives", .arr
            [.obj [("confidence", .num 1), ("transcript", .str "Hello")]])]])], none, []⟩ =
    .ok none :=
  (claim10_first_final_wins
    ⟨"scene", "event", "recognizeResults",
     some [("results", .arr
       [.obj [("final", .bool true), ("alternatives", .arr [])],
        .obj [("final", .bool true), ("alternatives", .arr
          [.obj [("confidence", .num 1), ("transcript", .str "Hello")]])]])], none, []⟩
    [("results", .arr
       [.obj [("final", .bool true), ("alternatives", .arr [])],
        .obj [("final", .bool true), ("alternatives", .arr
          [.obj [("confidence", .num 1), ("transcript", .str "Hello")]])]])]
    []
    [.obj [("final", .bool true), ("alternatives", .arr
      [.obj [("confidence", .num 1), ("transcript", .str "Hello")]])]]
    [("final", .bool true), ("alternatives", .arr [])]
    rfl rfl (by simp) rfl rfl).1

/-- C6: for a finished session log whose first entry parses with data
collector `"abc"`, with a later `recognizeResults` entry holding the
finalized alternative `"Hello"` at confidence 0.9, a later
`conversationResult` entry with input text `"Hi there"`, and every other
entry parseable with a name outside the two transcript-producing
variants, the generated transcript is `SessionId: abc` followed by
`Patient: Hello` followed by `Listener: Hi there`, in that order, after
the `Datetime:` header, with all other entries omitted. -/
theorem claim6_transcript_scenario
    (r0 rr rc : Record) (mid1 mid2 : List Record) (m0 : FlexMessage)
    (cr kr : String) (tr : Option String) (exr : List (String × Json))
    (cc kc : String) (tc : Option String) (exc : List (String × Json))
    (h0 : parseRaw r0.data = some m0)
    (h0dc : get_data_collector m0 = some (.str "abc"))
    (h0n1 : m0.name ≠ "recognizeResults") (h0n2 : m0.name ≠ "conversationResult")
    (hmid : ∀ r ∈ mid1 ++ mid2, ∃ m, parseRaw r.data = some m ∧
            m.name ≠ "recognizeResults" ∧ m.name ≠ "conversationResult")
    (hrr : parseRaw rr.data = some ⟨cr, kr, "recognizeResults",
      some [("results", .arr [.obj [("final", .bool true),
        ("alternatives", .arr [.obj [("confidence", .num (9/10)),
                                     ("transcript", .str "Hello")]])]])], tr, exr⟩)
    (hrc : parseRaw rc.data = some ⟨cc, kc, "conversationResult",
      some [("input", .obj [("text", .str "Hi there")])], tc, exc⟩) :
    record_convertation (r0 :: (mid1 ++ rr :: (mid2 ++ [rc]))) =
      .ok ["Datetime: " ++ r0.timestamp, "SessionId: abc",
           "Patient: Hello", "Listener: Hi there"] := by
  have e0 : entryLines r0 = .ok [] := entryLines_skip r0 m0 h0 h0n1 h0n2
  have emid1 : linesFor mid1 = .ok [] :=
    linesFor_all_skip mid1 (fun r hr =>
      (hmid r (List.mem_append_left mid2 hr)).elim
        (fun m hm => entryLines_skip r m hm.1 hm.2.1 hm.2.2))
  have emid2 : linesFor mid2 = .ok [] :=
    linesFor_all_skip mid2 (fun r hr =>
      (hmid r (List.mem_append_right mid1 hr)).elim
        (fun m hm => entryLines_skip r m hm.1 hm.2.1 hm.2.2))
  have err2 : entryLines rr = .ok ["Patient: Hello"] := by
    simp [entryLines, hrr, get_user_text, jlookup, List.lookup, userTextLoop,
      altTranscript, pyConf, maxAlt, pyTruthy, pyStr]
  have erc : entryLines rc = .ok ["Listener: Hi there"] := by
    simp [entryLines, hrc, get_input_text, jlookup, List.lookup, pyTruthy, pyStr]
  have htailc : linesFor [rc] = .ok ["Listener: Hi there"] := by
    rw [linesFor, erc, linesFor]
    rfl
  have htail2 : linesFor (mid2 ++ [rc]) = .ok ["Listener: Hi there"] :=
    linesFor_append_ok mid2 [rc] [] ["Listener: Hi there"] emid2 htailc
  have htail1 : linesFor (rr :: (mid2 ++ [rc])) =
      .ok ["Patient: Hello", "Listener: Hi there"] := by
    rw [linesFor, err2, htail2]
    rfl
  have hall : linesFor (r0 :: (mid1 ++ rr :: (mid2 ++ [rc]))) =
      .ok ["Patient: Hello", "Listener: Hi there"] := by
    rw [linesFor, e0,
      linesFor_append_ok mid1 (rr :: (mid2 ++ [rc]))
        [] ["Patient: Hello", "Listener: Hi there"] emid1 htail1]
    rfl
  simp [record_convertation, h0, h0dc, hall, pyStr]
  decide

theorem claim6_witness :
    record_convertation
      [⟨"2024-05-01T09:00:00", "recv", .json (.obj
         [("category", .str "session"), ("kind", .str "event"), ("name", .str "state"),
          ("body", .obj [("dataCollector", .str "abc")])])⟩,
       ⟨"2024-05-01T09:00:01", "sent", .json (.obj
         [("category", .str "scene"), ("kind", .str "event"),
          ("name", .str "personaResponse"),
          ("body", .obj [("currentSpeech", .str "ok")])])⟩,
       ⟨"2024-05-01T09:00:02", "recv", .json (.obj
         [("category", .str "scene"), ("kind", .str "event"),
          ("name", .str "recognizeResults"),
          ("body", .obj [("results", .arr [.obj [("final", .bool true),
            ("alternatives", .arr [.obj [("confidence", .num (9/10)),
                                         ("transcript", .str "Hello")]])]])])])⟩,
       ⟨"2024-05-01T09:00:03", "recv", .json (.obj
         [("category", .str "scene"), ("kind", .str "conversation"),
          ("name", .str "conversationResult"),
          ("body", .obj [("input", .obj [("text", .str "Hi there")])])])⟩] =
      .ok ["Datetime: 2024-05-01T09:00:00", "SessionId: abc",
           "Patient: Hello", "Listener: Hi there"] := by
  have h := claim6_transcript_scenario
    ⟨"2024-05-01T09:00:00", "recv", .json (.obj
       [("category", .str "session"), ("kind", .str "event"), ("name", .str "state"),
        ("body", .obj [("dataCollector", .str "abc")])])⟩
    ⟨"2024-05-01T09:00:02", "recv", .json (.obj
       [("category", .str "scene"), ("kind", .str "event"),
        ("name", .str "recognizeResults"),
        ("body", .obj [("results", .arr [.obj [("final", .bool true),
          ("alternatives", .arr [.obj [("confidence", .num (9/10)),
                                       ("transcript", .str "Hello")]])]])])])⟩
    ⟨"2024-05-01T09:00:03", "recv", .json (.obj
       [("category", .str "scene"), ("kind", .str "conversation"),
        ("name", .str "conversationResult"),
        ("body", .obj [("input", .obj [("text", .str "Hi there")])])])⟩
    [⟨"2024-05-01T09:00:01", "sent", .json (.obj
       [("category", .str "scene"), ("kind", .str "event"),
        ("name", .str "personaResponse"),
        ("body", .obj [("currentSpeech", .str "ok")])])⟩]
    []
    ⟨"session", "event", "state", some [("dataCollector", .str "abc")], none, []⟩
    "scene" "event" none []
    "scene" "conversation" none []
    rfl rfl (by decide) (by decide)
    (by
      intro r hr
      simp only [List.append_nil, List.mem_singleton] at hr
      subst hr
      exact ⟨⟨"scene", "event", "personaResponse",
              some [("currentSpeech", .str "ok")], none, []⟩, rfl, by decide, by decide⟩)
    rfl rfl
  exact h
